import Mathlib

/-!
Shallow embedding of the expat structured-fuzzing harness
`fuzz/xml_lpm_fuzzer.cpp`.

Modelling conventions:
* C strings (`const XML_Char*`) are `Option String`; a NULL pointer is `none`.
* Byte buffers (protobuf `bytes`) are `List Nat`.
* C `int` values (the allocation counter, fail-list entries) are `Int`.
* The expat library itself is external to the repository.  Its observable
  behaviour at each feed is abstracted as an oracle value `FeedResult`: the
  status returned by the underlying `XML_Parse` call together with the
  statuses returned by successive `XML_ResumeParser` calls, in order.
* Side-effecting harness code is modelled as functions that return an explicit
  event trace (`Event`, `EERHEvent`, ...) alongside their result, so that
  claims about the order and multiplicity of library calls can be stated.
-/

namespace XmlLpmFuzzer

/-- Status enum of the library API: XML_STATUS_ERROR, XML_STATUS_OK,
XML_STATUS_SUSPENDED. -/
inductive XMLStatus where
  | error
  | ok
  | suspended
deriving DecidableEq

/-- Encoding enum of the fuzzer protobuf schema.  The schema names five
values; `unrecognized` stands for any other numeric value a protobuf enum
field may carry, which the C++ switch sends to its `default` arm. -/
inductive Encoding where
  | UTF8
  | UTF16
  | ISO88591
  | ASCII
  | NONE
  | unrecognized
deriving DecidableEq

/-- SetEncoding from the source: translates the Encoding enum into the
encoding-name string stored in the global `g_encoding` (NULL = `none` means
no encoding hint / auto-detect). -/
def SetEncoding : Encoding → Option String
  | Encoding.UTF8 => some "UTF-8"
  | Encoding.UTF16 => some "UTF-16"
  | Encoding.ISO88591 => some "ISO-8859-1"
  | Encoding.ASCII => some "US-ASCII"
  | Encoding.NONE => none
  | Encoding.unrecognized => some "UNKNOWN"

/-- MallocHook from the source.  Scans the fail-list for the current counter
value; on a hit it returns NULL without incrementing the counter and without
calling `malloc`; otherwise it increments the counter and performs the real
allocation.  Result: (allocation performed?, new counter value). -/
def MallocHook (fail_allocations : List Int) (allocation_count : Int) :
    Bool × Int :=
  if fail_allocations.any (fun index => index == allocation_count) then
    (false, allocation_count)
  else
    (true, allocation_count + 1)

/-- ReallocHook from the source: same failure-injection logic as MallocHook,
performing `realloc` instead of `malloc`. -/
def ReallocHook (fail_allocations : List Int) (allocation_count : Int) :
    Bool × Int :=
  if fail_allocations.any (fun index => index == allocation_count) then
    (false, allocation_count)
  else
    (true, allocation_count + 1)

/-- Which of the two failable allocator entry points a call goes through. -/
inductive AllocCall where
  | malloc
  | realloc
deriving DecidableEq

/-- Dispatch one allocator call to the matching hook. -/
def allocStep (fail_allocations : List Int) (allocation_count : Int) :
    AllocCall → Bool × Int
  | AllocCall.malloc => MallocHook fail_allocations allocation_count
  | AllocCall.realloc => ReallocHook fail_allocations allocation_count

/-- Run a sequence of allocator calls, threading the allocation counter the
way the process-wide global is threaded through a test case.  Returns the
per-call success results in order and the final counter value. -/
def allocRun (fail_allocations : List Int) (allocation_count : Int) :
    List AllocCall → List Bool × Int
  | [] => ([], allocation_count)
  | k :: rest =>
      let r := allocStep fail_allocations allocation_count k
      let q := allocRun fail_allocations r.2 rest
      (r.1 :: q.1, q.2)

/-- Claim C1 read literally, at a given call sequence: the i-th allocator
call (zero-indexed) fails exactly when i is in the fail-list, i.e. the
indexed calls fail and every other call succeeds normally. -/
abbrev PerOrdinalFailure (fail_allocations : List Int)
    (calls : List AllocCall) : Prop :=
  ∀ i : Nat, i < calls.length →
    (((allocRun fail_allocations 0 calls).1.getD i true = false) ↔
      (i : Int) ∈ fail_allocations)

/-- Oracle for one feed: the status the underlying XML_Parse call returns,
and the statuses successive XML_ResumeParser calls return, in order. -/
structure FeedResult where
  status : XMLStatus
  resumes : List XMLStatus
deriving DecidableEq

/-- The while loop of the Parse wrapper: while the status is suspended, take
the next resume status.  Returns the final status together with the number of
XML_ResumeParser calls made.  (If every available status is suspended the C
loop would simply keep calling resume; the model then reports suspended with
all resume results consumed.) -/
def resumeLoop : XMLStatus → List XMLStatus → XMLStatus × Nat
  | s, [] => (s, 0)
  | s, r :: rest =>
      if s = XMLStatus.suspended then
        let q := resumeLoop r rest
        (q.1, q.2 + 1)
      else
        (s, 0)

/-- The Parse wrapper from the source: call XML_Parse, then resume while the
status is suspended.  Outcome: (final status, number of resume calls). -/
def Parse (fr : FeedResult) : XMLStatus × Nat :=
  resumeLoop fr.status fr.resumes

/-- Library calls the driver makes, recorded as an event trace.  The create
event records the encoding argument of XML_ParserCreate_MM (the separator
string "|" and the allocator suite are fixed and not recorded); the reset
event records the encoding argument of XML_ParserReset; `initParser` is a
call of InitializeParser, i.e. registration of the full callback set. -/
inductive Event where
  | createParser (enc : Option String)
  | feedChunk (bytes : List Nat) (final : Bool)
  | resumeCall
  | resetParser (enc : Option String)
  | initParser
  | freeParser
deriving DecidableEq

/-- Is this event a construction of the main parser? -/
def Event.isCreate : Event → Bool
  | Event.createParser _ => true
  | _ => false

/-- Is this event a destruction of the main parser? -/
def Event.isFree : Event → Bool
  | Event.freeParser => true
  | _ => false

/-- Is this event a parser reset? -/
def Event.isReset : Event → Bool
  | Event.resetParser _ => true
  | _ => false

/-- Is this event a callback re-registration (InitializeParser)? -/
def Event.isInit : Event → Bool
  | Event.initParser => true
  | _ => false

/-- Is this event an underlying feed (XML_Parse) call? -/
def Event.isFeed : Event → Bool
  | Event.feedChunk _ _ => true
  | _ => false

/-- Events one Parse-wrapper invocation emits: the underlying XML_Parse call
followed by one resumeCall per XML_ResumeParser call the while loop makes. -/
def feedEvents (bytes : List Nat) (final : Bool) (fr : FeedResult) :
    List Event :=
  Event.feedChunk bytes final :: List.replicate (Parse fr).2 Event.resumeCall

/-- The process-wide globals of the harness. -/
structure Globals where
  g_encoding : Option String
  external_entity : Option (List Nat)
  allocation_count : Int
  fail_allocations : List Int
deriving DecidableEq

/-- One protobuf Action: a tagged union.  `unset` is the ACTION_NOT_SET case
the C++ switch sends to its `default: break` arm. -/
inductive Action where
  | chunk (bytes : List Nat)
  | lastChunk (bytes : List Nat)
  | reset
  | externalEntity (bytes : List Nat)
  | unset
deriving DecidableEq

/-- Does replaying this action perform a feed (consume one oracle entry)? -/
def Action.feeds : Action → Bool
  | Action.chunk _ => true
  | Action.lastChunk _ => true
  | _ => false

/-- Replay of one action from the switch in the fuzzer entry point.  `fr` is
the oracle for the feed this action performs (ignored by actions that do not
feed).  Returns the updated globals and the emitted event trace:
* chunk: feed non-final; on XML_STATUS_ERROR force a reset (and do NOT call
  InitializeParser);
* lastChunk: feed final, then unconditionally reset and InitializeParser;
* reset: reset and InitializeParser, feeding nothing;
* externalEntity: store the pending external-entity buffer, no library call;
* unset: nothing. -/
def replayStep (g : Globals) (a : Action) (fr : FeedResult) :
    Globals × List Event :=
  match a with
  | Action.chunk bytes =>
      if (Parse fr).1 = XMLStatus.error then
        (g, feedEvents bytes false fr ++ [Event.resetParser g.g_encoding])
      else
        (g, feedEvents bytes false fr)
  | Action.lastChunk bytes =>
      (g, feedEvents bytes true fr ++
            [Event.resetParser g.g_encoding, Event.initParser])
  | Action.reset =>
      (g, [Event.resetParser g.g_encoding, Event.initParser])
  | Action.externalEntity bytes =>
      ({ g with external_entity := some bytes }, [])
  | Action.unset => (g, [])

/-- Replay a list of actions in order, threading the globals and consuming
one oracle entry per feeding action. -/
def replay : Globals → List Action → List FeedResult → Globals × List Event
  | g, [], _ => (g, [])
  | g, a :: rest, oracle =>
      let r := replayStep g a (oracle.headD ⟨XMLStatus.ok, []⟩)
      let q := replay r.1 rest (if a.feeds then oracle.tail else oracle)
      (q.1, r.2 ++ q.2)

/-- One structured test case, as the protobuf Testcase message. -/
structure Testcase where
  encoding : Encoding
  fail_allocations : List Int
  actions : List Action
deriving DecidableEq

/-- The per-test-case setup of the globals (non-empty case): pending buffer
cleared, allocation counter zeroed, fail-list installed from the test case,
encoding translated. -/
def setupGlobals (g : Globals) (tc : Testcase) : Globals :=
  { g with external_entity := none,
           allocation_count := 0,
           fail_allocations := tc.fail_allocations,
           g_encoding := SetEncoding tc.encoding }

/-- The fuzzer entry point, DEFINE_TEXT_PROTO_FUZZER: clear the pending
external-entity buffer; return at once when there are no actions; otherwise
zero the allocation counter, install the test case's fail-list, translate the
encoding, construct the parser, register the callbacks, replay the actions
and free the parser. -/
def runTestcase (g : Globals) (tc : Testcase) (oracle : List FeedResult) :
    Globals × List Event :=
  if tc.actions.isEmpty then
    ({ g with external_entity := none }, [])
  else
    let r := replay (setupGlobals g tc) tc.actions oracle
    (r.1, Event.createParser (SetEncoding tc.encoding) :: Event.initParser ::
            r.2 ++ [Event.freeParser])

/-- Events the external-entity-reference handler emits.  The create event
records the context and encoding arguments of
XML_ExternalEntityParserCreate. -/
inductive EERHEvent where
  | touchArgs
  | createExtParser (context : Option String) (enc : Option String)
  | feedExt (bytes : List Nat) (final : Bool)
  | resumeExt
  | freeExtParser
deriving DecidableEq

/-- Is this event a construction of a nested (external-entity) parser? -/
def EERHEvent.isCreateExt : EERHEvent → Bool
  | EERHEvent.createExtParser _ _ => true
  | _ => false

/-- Is this event a destruction of a nested parser? -/
def EERHEvent.isFreeExt : EERHEvent → Bool
  | EERHEvent.freeExtParser => true
  | _ => false

/-- Is this event a feed into a nested parser? -/
def EERHEvent.isFeedExt : EERHEvent → Bool
  | EERHEvent.feedExt _ _ => true
  | _ => false

/-- ExternalEntityRefHandler from the source.  `rc` starts as
XML_STATUS_ERROR; the four string arguments are touched; when the pending
external-entity buffer is set, a nested parser is created from the current
context and the global encoding, the buffer is fed as a single final chunk
through the Parse wrapper, the nested parser is freed and the nested parse's
status becomes the returned value; with no pending buffer the initial error
status is returned and no nested parser is created.  `fr` is the oracle for
the nested feed. -/
def ExternalEntityRefHandler (g_encoding : Option String)
    (context : Option String) (external_entity : Option (List Nat))
    (fr : FeedResult) : XMLStatus × List EERHEvent :=
  match external_entity with
  | some buf =>
      let r := Parse fr
      (r.1,
        [EERHEvent.touchArgs, EERHEvent.createExtParser context g_encoding,
         EERHEvent.feedExt buf true]
          ++ List.replicate r.2 EERHEvent.resumeExt
          ++ [EERHEvent.freeExtParser])
  | none => (XMLStatus.error, [EERHEvent.touchArgs])

/-- Events the comment handler emits. -/
inductive CommentEvent where
  | touchData (data : Option String)
  | stopRequest (resumable : Bool)
deriving DecidableEq

/-- CommentHandler from the source: touch the comment text (a no-op for a
NULL pointer, but the call is made either way), then call
XML_StopParser(parser, XML_TRUE), i.e. request resumable suspension. -/
def CommentHandler (data : Option String) : List CommentEvent :=
  [CommentEvent.touchData data, CommentEvent.stopRequest true]

/-- The XML_Content_Type enum.  `badTag` stands for any numeric value outside
the six declared ones, which the C++ switch sends to its
`default: assert(false)` arm. -/
inductive XMLContentType where
  | EMPTY
  | ANY
  | MIXED
  | NAME
  | CHOICE
  | SEQ
  | badTag
deriving DecidableEq

/-- The XML_Content_Quant enum. -/
inductive XMLQuant where
  | NONE
  | OPT
  | REP
  | PLUS
deriving DecidableEq

/-- An XML_Content node of the content-model tree delivered to the
element-declaration callback.  The C struct's separate `numchildren` count
and `children` pointer are collapsed into one list (the verifier checks
`numchildren == 0` and `children == NULL` together, which the empty list
models). -/
inductive XMLContent where
  | node (ctype : XMLContentType) (quant : XMLQuant) (name : Option String)
      (children : List XMLContent)

/-- Node tag of a content node. -/
def XMLContent.ctype : XMLContent → XMLContentType
  | XMLContent.node t _ _ _ => t

/-- Quantifier of a content node. -/
def XMLContent.quant : XMLContent → XMLQuant
  | XMLContent.node _ q _ _ => q

/-- Name of a content node (NULL = `none`). -/
def XMLContent.name : XMLContent → Option String
  | XMLContent.node _ _ n _ => n

/-- Children of a content node. -/
def XMLContent.children : XMLContent → List XMLContent
  | XMLContent.node _ _ _ cs => cs

/-- The check the MIXED arm of TouchChildNodes applies to each child:
the child's type is XML_CTYPE_NAME and it has no children (its name is then
touched, always safe in the model). -/
def isNameLeaf : XMLContent → Bool
  | XMLContent.node t _ _ cs => t == XMLContentType.NAME && cs.isEmpty

mutual

/-- TouchChildNodes from the source, with assert failures modelled as the
result `false` (the process aborts) and a fully passed walk as `true`.
The unused `topLevel` parameter of the C function is dropped.  Per arm:
EMPTY/ANY require quant NONE, no name, no children; MIXED requires quant
NONE or REP, no name, and every child a NAME leaf; NAME requires no children
(its name is touched, which never aborts, also for NULL); CHOICE/SEQ require
no name and recurse into each child; any other tag aborts. -/
def TouchChildNodes : XMLContent → Bool
  | XMLContent.node t q n cs =>
      match t with
      | XMLContentType.EMPTY =>
          q == XMLQuant.NONE && n.isNone && cs.isEmpty
      | XMLContentType.ANY =>
          q == XMLQuant.NONE && n.isNone && cs.isEmpty
      | XMLContentType.MIXED =>
          (q == XMLQuant.NONE || q == XMLQuant.REP) && n.isNone &&
            cs.all isNameLeaf
      | XMLContentType.NAME => cs.isEmpty
      | XMLContentType.CHOICE => n.isNone && touchNodeList cs
      | XMLContentType.SEQ => n.isNone && touchNodeList cs
      | XMLContentType.badTag => false

/-- The child loop of the CHOICE/SEQ arms of TouchChildNodes. -/
def touchNodeList : List XMLContent → Bool
  | [] => true
  | c :: rest => TouchChildNodes c && touchNodeList rest

end

/-- Events the element-declaration handler emits. -/
inductive EDHEvent where
  | touchName (name : Option String)
  | freeContentModel
deriving DecidableEq

/-- ElementDeclHandler from the source: touch the element name, verify the
content-model tree with TouchChildNodes, then release the model with
XML_FreeContentModel.  An assert failure inside the verifier aborts the
process before the release, modelled as `none`. -/
def ElementDeclHandler (name : Option String) (model : XMLContent) :
    Option (List EDHEvent) :=
  if TouchChildNodes model then
    some [EDHEvent.touchName name, EDHEvent.freeContentModel]
  else
    none

/-- The fail-list scan of the hooks detects exactly membership. -/
theorem any_beq_eq_true_iff (fs : List Int) (c : Int) :
    (fs.any fun index => index == c) = true ↔ c ∈ fs := by
  rw [List.any_eq_true]
  constructor
  · rintro ⟨x, hx, hbeq⟩
    rw [beq_iff_eq] at hbeq
    exact hbeq ▸ hx
  · intro h
    exact ⟨c, h, by simp⟩

theorem mallocHook_of_mem (fs : List Int) (c : Int) (h : c ∈ fs) :
    MallocHook fs c = (false, c) := by
  have hc : (fs.any fun index => index == c) = true :=
    (any_beq_eq_true_iff fs c).mpr h
  simp [MallocHook, hc]

theorem mallocHook_of_not_mem (fs : List Int) (c : Int) (h : c ∉ fs) :
    MallocHook fs c = (true, c + 1) := by
  have hc : ¬ (fs.any fun index => index == c) = true := by
    rw [any_beq_eq_true_iff]; exact h
  simp [MallocHook, hc]

theorem reallocHook_eq_mallocHook : ReallocHook = MallocHook := rfl

theorem allocStep_of_mem (fs : List Int) (c : Int) (k : AllocCall)
    (h : c ∈ fs) : allocStep fs c k = (false, c) := by
  cases k <;>
    simp [allocStep, reallocHook_eq_mallocHook, mallocHook_of_mem fs c h]

theorem allocStep_of_not_mem (fs : List Int) (c : Int) (k : AllocCall)
    (h : c ∉ fs) : allocStep fs c k = (true, c + 1) := by
  cases k <;>
    simp [allocStep, reallocHook_eq_mallocHook, mallocHook_of_not_mem fs c h]

theorem allocRun_of_mem (fs : List Int) (c : Int) (h : c ∈ fs) :
    ∀ ks : List AllocCall,
      allocRun fs c ks = (List.replicate ks.length false, c) := by
  intro ks
  induction ks with
  | nil => simp only [allocRun, List.length_nil, List.replicate_zero]
  | cons k rest ih =>
      simp only [allocRun, allocStep_of_mem fs c k h, ih, List.length_cons,
        List.replicate_succ]

theorem allocRun_of_all_not_mem (fs : List Int) :
    ∀ (ks : List AllocCall) (c : Int),
      (∀ i : Nat, i < ks.length → (c + i) ∉ fs) →
      allocRun fs c ks = (List.replicate ks.length true, c + ks.length) := by
  intro ks
  induction ks with
  | nil => intro c _; simp [allocRun]
  | cons k rest ih =>
      intro c h
      have h0 : c ∉ fs := by
        have := h 0 (by simp)
        simpa using this
      have hrest : ∀ i : Nat, i < rest.length → (c + 1 + i) ∉ fs := by
        intro i hi
        have := h (i + 1) (by simpa using Nat.succ_lt_succ hi)
        have harith : c + ((i : Int) + 1) = c + 1 + i := by ring
        simpa [harith] using this
      have hstep := allocStep_of_not_mem fs c k h0
      simp only [allocRun, hstep, ih (c + 1) hrest, List.length_cons,
        List.replicate_succ, Prod.mk.injEq]
      refine ⟨by trivial, ?_⟩
      push_cast
      ring

theorem resumeLoop_of_not_suspended (s : XMLStatus) (rs : List XMLStatus)
    (h : s ≠ XMLStatus.suspended) : resumeLoop s rs = (s, 0) := by
  cases rs <;> simp [resumeLoop, h]

theorem resumeLoop_progress (rs : List XMLStatus) :
    ∀ s : XMLStatus, (∃ x ∈ s :: rs, x ≠ XMLStatus.suspended) →
      (resumeLoop s rs).1 ≠ XMLStatus.suspended := by
  induction rs with
  | nil =>
      intro s h
      obtain ⟨x, hx, hxs⟩ := h
      simp at hx
      subst hx
      simp [resumeLoop, hxs]
  | cons r rest ih =>
      intro s h
      by_cases hs : s = XMLStatus.suspended
      · subst hs
        have hprog : ∃ x ∈ r :: rest, x ≠ XMLStatus.suspended := by
          obtain ⟨x, hx, hxs⟩ := h
          rcases List.mem_cons.mp hx with hx1 | hx2
          · exact absurd hx1 hxs
          · exact ⟨x, hx2, hxs⟩
        simpa [resumeLoop] using ih r hprog
      · simp [resumeLoop, hs]

theorem countP_replicate_zero {α : Type} (p : α → Bool) (a : α) (n : Nat)
    (h : p a = false) : (List.replicate n a).countP p = 0 := by
  rw [List.countP_eq_zero]
  intro b hb
  rw [List.eq_of_mem_replicate hb]
  simp [h]

theorem feedEvents_not_create_free (b : List Nat) (fin : Bool)
    (fr : FeedResult) :
    ∀ e ∈ feedEvents b fin fr, e.isCreate = false ∧ e.isFree = false := by
  intro e he
  simp [feedEvents, List.mem_replicate] at he
  rcases he with rfl | ⟨-, rfl⟩ <;> exact ⟨rfl, rfl⟩

theorem replayStep_not_create_free (g : Globals) (a : Action)
    (fr : FeedResult) :
    ∀ e ∈ (replayStep g a fr).2, e.isCreate = false ∧ e.isFree = false := by
  intro e he
  cases a with
  | chunk bytes =>
      simp only [replayStep] at he
      split at he
      · rcases List.mem_append.mp he with h1 | h2
        · exact feedEvents_not_create_free bytes false fr e h1
        · simp at h2; subst h2; exact ⟨rfl, rfl⟩
      · exact feedEvents_not_create_free bytes false fr e he
  | lastChunk bytes =>
      simp only [replayStep] at he
      rcases List.mem_append.mp he with h1 | h2
      · exact feedEvents_not_create_free bytes true fr e h1
      · simp at h2
        rcases h2 with rfl | rfl <;> exact ⟨rfl, rfl⟩
  | reset =>
      simp only [replayStep] at he
      simp at he
      rcases he with rfl | rfl <;> exact ⟨rfl, rfl⟩
  | externalEntity bytes => simp [replayStep] at he
  | unset => simp [replayStep] at he

theorem replay_not_create_free :
    ∀ (acts : List Action) (g : Globals) (oracle : List FeedResult),
      ∀ e ∈ (replay g acts oracle).2,
        e.isCreate = false ∧ e.isFree = false := by
  intro acts
  induction acts with
  | nil => intro g oracle e he; simp [replay] at he
  | cons a rest ih =>
      intro g oracle e he
      simp only [replay] at he
      rcases List.mem_append.mp he with h1 | h2
      · exact replayStep_not_create_free g a _ e h1
      · exact ih _ _ e h2

theorem getLast_shape (x y f : Event) (l : List Event) :
    (x :: y :: l ++ [f]).getLast? = some f := by
  rw [show x :: y :: l ++ [f] = (x :: y :: l) ++ [f] by simp]
  rw [List.getLast?_concat]

theorem touchNodeList_eq_true_iff (cs : List XMLContent) :
    touchNodeList cs = true ↔ ∀ c ∈ cs, TouchChildNodes c = true := by
  induction cs with
  | nil => simp [touchNodeList]
  | cons c rest ih => simp [touchNodeList, Bool.and_eq_true, ih]

theorem touch_empty_any_eq_true_iff (t : XMLContentType) (q : XMLQuant)
    (n : Option String) (cs : List XMLContent)
    (ht : t = XMLContentType.EMPTY ∨ t = XMLContentType.ANY) :
    TouchChildNodes (XMLContent.node t q n cs) = true ↔
      (q = XMLQuant.NONE ∧ n = none ∧ cs = []) := by
  rcases ht with rfl | rfl <;>
    simp [TouchChildNodes, Bool.and_eq_true, beq_iff_eq,
      Option.isNone_iff_eq_none, List.isEmpty_iff, and_assoc]

theorem touch_mixed_eq_true_iff (q : XMLQuant) (n : Option String)
    (cs : List XMLContent) :
    TouchChildNodes (XMLContent.node XMLContentType.MIXED q n cs) = true ↔
      ((q = XMLQuant.NONE ∨ q = XMLQuant.REP) ∧ n = none ∧
        ∀ c ∈ cs, isNameLeaf c = true) := by
  simp [TouchChildNodes, Bool.and_eq_true, Bool.or_eq_true, beq_iff_eq,
    Option.isNone_iff_eq_none, List.all_eq_true, and_assoc]

theorem touch_choice_seq_eq_true_iff (t : XMLContentType) (q : XMLQuant)
    (n : Option String) (cs : List XMLContent)
    (ht : t = XMLContentType.CHOICE ∨ t = XMLContentType.SEQ) :
    TouchChildNodes (XMLContent.node t q n cs) = true ↔
      (n = none ∧ ∀ c ∈ cs, TouchChildNodes c = true) := by
  rcases ht with rfl | rfl <;>
    simp [TouchChildNodes, Bool.and_eq_true, Option.isNone_iff_eq_none,
      touchNodeList_eq_true_iff]

/-- Claim C1, counterexample.  The claim says the allocation indexed by the
fail-list fails and every other allocation during the test case succeeds
normally.  With fail-list [0] and two allocator calls, the second call
(ordinal 1, not in the fail-list) also returns failure, because the forced
failure at ordinal 0 left the counter at 0; so the per-ordinal reading of
the claim is false. -/
theorem C1_per_ordinal_counterexample :
    ¬ PerOrdinalFailure [0] [AllocCall.malloc, AllocCall.malloc] := by
  decide

/-- Claim C1, amended: the failure policy of MallocHook/ReallocHook is by
counter value, not call ordinal.  A call made while the counter equals a
fail-list value returns failure without incrementing the counter and without
performing the allocation; a call made while the counter is not in the
fail-list performs the allocation and increments the counter; consequently,
in a test case in which no reached counter value is in the fail-list — in
particular whenever no call ordinal is in the fail-list — every allocation
succeeds normally (calls after a forced failure instead find the counter
unchanged and keep failing, see C2). -/
theorem C1_alloc_failure_policy :
    (∀ (fs : List Int) (c : Int) (k : AllocCall),
        (c ∈ fs → allocStep fs c k = (false, c)) ∧
        (c ∉ fs → allocStep fs c k = (true, c + 1))) ∧
    (∀ (fs : List Int) (ks : List AllocCall),
        (∀ i : Nat, i < ks.length → (i : Int) ∉ fs) →
        (allocRun fs 0 ks).1 = List.replicate ks.length true) := by
  constructor
  · intro fs c k
    exact ⟨allocStep_of_mem fs c k, allocStep_of_not_mem fs c k⟩
  · intro fs ks h
    have h' : ∀ i : Nat, i < ks.length → ((0 : Int) + i) ∉ fs := by
      intro i hi
      simpa using h i hi
    simp [allocRun_of_all_not_mem fs ks 0 h']

/-- Witness for C1_alloc_failure_policy at concrete inputs. -/
theorem C1_alloc_failure_policy_witness :
    allocStep [0] 0 AllocCall.malloc = (false, 0) ∧
    allocStep [5] 0 AllocCall.realloc = (true, 1) ∧
    (allocRun [5] 0 [AllocCall.malloc, AllocCall.realloc]).1 = [true, true] := by
  refine ⟨(C1_alloc_failure_policy.1 [0] 0 AllocCall.malloc).1 (by decide),
          (C1_alloc_failure_policy.1 [5] 0 AllocCall.realloc).2 (by decide), ?_⟩
  have h := C1_alloc_failure_policy.2 [5] [AllocCall.malloc, AllocCall.realloc]
    (by decide)
  simpa using h

/-- Claim C2: a forced allocation failure does not advance the allocation
counter, so once the counter equals a value in the fail-list it stays there
for the rest of the test case and every subsequent allocate/reallocate call
also fails; the counter is still the same value after any number of further
calls. -/
theorem C2_counter_stuck_after_failure :
    ∀ (fs : List Int) (c : Int) (ks : List AllocCall), c ∈ fs →
      allocRun fs c ks = (List.replicate ks.length false, c) := by
  intro fs c ks h
  exact allocRun_of_mem fs c h ks

/-- Witness for C2_counter_stuck_after_failure at a concrete input. -/
theorem C2_counter_stuck_after_failure_witness :
    allocRun [3] 3 [AllocCall.malloc, AllocCall.realloc, AllocCall.malloc] =
      ([false, false, false], 3) := by
  have h := C2_counter_stuck_after_failure [3] 3
    [AllocCall.malloc, AllocCall.realloc, AllocCall.malloc] (by decide)
  simpa using h

/-- Claim C3: the Parse wrapper never yields a suspended status.  Under the
library's progress guarantee (some status among the XML_Parse status and the
successive resume statuses is non-suspended), the wrapper's outcome is not
suspended; when the underlying feed is not suspended the wrapper returns it
at once with no resume call; when the underlying feed is suspended the
wrapper makes at least one resume call. -/
theorem C3_parse_resumes_until_not_suspended :
    ∀ fr : FeedResult,
      (∃ x ∈ fr.status :: fr.resumes, x ≠ XMLStatus.suspended) →
      (Parse fr).1 ≠ XMLStatus.suspended ∧
      (fr.status ≠ XMLStatus.suspended → Parse fr = (fr.status, 0)) ∧
      (fr.status = XMLStatus.suspended → 1 ≤ (Parse fr).2) := by
  intro fr h
  refine ⟨resumeLoop_progress fr.resumes fr.status h, ?_, ?_⟩
  · intro hs
    exact resumeLoop_of_not_suspended fr.status fr.resumes hs
  · intro hs
    cases hres : fr.resumes with
    | nil =>
        exfalso
        obtain ⟨x, hx, hxs⟩ := h
        rw [hres] at hx
        simp at hx
        exact hxs (by rw [hx, hs])
    | cons r rest =>
        simp [Parse, hres, resumeLoop, hs]

/-- Witness for C3_parse_resumes_until_not_suspended at a concrete input. -/
theorem C3_parse_resumes_until_not_suspended_witness :
    (Parse ⟨XMLStatus.suspended, [XMLStatus.suspended, XMLStatus.ok]⟩).1 ≠
      XMLStatus.suspended ∧
    1 ≤ (Parse ⟨XMLStatus.suspended, [XMLStatus.suspended, XMLStatus.ok]⟩).2 := by
  refine ⟨(C3_parse_resumes_until_not_suspended
      ⟨XMLStatus.suspended, [XMLStatus.suspended, XMLStatus.ok]⟩ (by decide)).1,
    (C3_parse_resumes_until_not_suspended
      ⟨XMLStatus.suspended, [XMLStatus.suspended, XMLStatus.ok]⟩
      (by decide)).2.2 rfl⟩

/-- Claim C4: with a pending external-entity buffer, the handler constructs
exactly one nested parser from the current context and the chosen encoding,
feeds the pending buffer as a single final chunk through the suspend-resuming
feed wrapper, frees the nested parser last, and returns the nested parse's
status; with no pending buffer it returns XML_STATUS_ERROR and constructs no
nested parser. -/
theorem C4_external_entity_ref_handler :
    ∀ (enc context : Option String) (buf : List Nat) (fr : FeedResult),
      ((ExternalEntityRefHandler enc context (some buf) fr).1 = (Parse fr).1 ∧
       (ExternalEntityRefHandler enc context (some buf) fr).2.countP
          EERHEvent.isCreateExt = 1 ∧
       (ExternalEntityRefHandler enc context (some buf) fr).2.countP
          EERHEvent.isFreeExt = 1 ∧
       (ExternalEntityRefHandler enc context (some buf) fr).2.countP
          EERHEvent.isFeedExt = 1 ∧
       EERHEvent.createExtParser context enc ∈
          (ExternalEntityRefHandler enc context (some buf) fr).2 ∧
       EERHEvent.feedExt buf true ∈
          (ExternalEntityRefHandler enc context (some buf) fr).2 ∧
       (ExternalEntityRefHandler enc context (some buf) fr).2.getLast? =
          some EERHEvent.freeExtParser) ∧
      ((ExternalEntityRefHandler enc context none fr).1 = XMLStatus.error ∧
       (ExternalEntityRefHandler enc context none fr).2.countP
          EERHEvent.isCreateExt = 0) := by
  intro enc context buf fr
  refine ⟨⟨rfl, ?_, ?_, ?_, ?_, ?_, ?_⟩, rfl, rfl⟩
  · simp [ExternalEntityRefHandler, List.countP_cons, List.countP_append,
      EERHEvent.isCreateExt,
      countP_replicate_zero EERHEvent.isCreateExt EERHEvent.resumeExt _ rfl]
  · simp [ExternalEntityRefHandler, List.countP_cons, List.countP_append,
      EERHEvent.isFreeExt,
      countP_replicate_zero EERHEvent.isFreeExt EERHEvent.resumeExt _ rfl]
  · simp [ExternalEntityRefHandler, List.countP_cons, List.countP_append,
      EERHEvent.isFeedExt,
      countP_replicate_zero EERHEvent.isFeedExt EERHEvent.resumeExt _ rfl]
  · simp [ExternalEntityRefHandler]
  · simp [ExternalEntityRefHandler]
  · simp only [ExternalEntityRefHandler]
    rw [show ([EERHEvent.touchArgs, EERHEvent.createExtParser context enc,
        EERHEvent.feedExt buf true]
          ++ List.replicate (Parse fr).2 EERHEvent.resumeExt
          ++ [EERHEvent.freeExtParser]) =
        (([EERHEvent.touchArgs, EERHEvent.createExtParser context enc,
        EERHEvent.feedExt buf true]
          ++ List.replicate (Parse fr).2 EERHEvent.resumeExt)
          ++ [EERHEvent.freeExtParser]) by simp]
    rw [List.getLast?_concat]

/-- Claim C5: the three reset paths are asymmetric.  A chunk whose feed
reports a parse error triggers a reset with no callback re-registration; a
chunk that does not report an error triggers neither; a last chunk always
triggers a reset followed by re-registration; a Reset action emits exactly a
reset followed by re-registration and no feed. -/
theorem C5_reset_asymmetry :
    ∀ (g : Globals) (b : List Nat) (fr : FeedResult),
      ((Parse fr).1 = XMLStatus.error →
        (replayStep g (Action.chunk b) fr).2 =
          feedEvents b false fr ++ [Event.resetParser g.g_encoding] ∧
        (replayStep g (Action.chunk b) fr).2.countP Event.isInit = 0) ∧
      ((Parse fr).1 ≠ XMLStatus.error →
        (replayStep g (Action.chunk b) fr).2 = feedEvents b false fr ∧
        (replayStep g (Action.chunk b) fr).2.countP Event.isReset = 0 ∧
        (replayStep g (Action.chunk b) fr).2.countP Event.isInit = 0) ∧
      ((replayStep g (Action.lastChunk b) fr).2 =
        feedEvents b true fr ++
          [Event.resetParser g.g_encoding, Event.initParser]) ∧
      ((replayStep g Action.reset fr).2 =
        [Event.resetParser g.g_encoding, Event.initParser]) := by
  intro g b fr
  refine ⟨?_, ?_, rfl, rfl⟩
  · intro h
    constructor
    · simp [replayStep, h]
    · simp [replayStep, h, feedEvents, List.countP_cons, List.countP_append,
        Event.isInit,
        countP_replicate_zero Event.isInit Event.resumeCall _ rfl]
  · intro h
    refine ⟨by simp [replayStep, h], ?_, ?_⟩
    · simp [replayStep, h, feedEvents, List.countP_cons, List.countP_append,
        Event.isReset,
        countP_replicate_zero Event.isReset Event.resumeCall _ rfl]
    · simp [replayStep, h, feedEvents, List.countP_cons, List.countP_append,
        Event.isInit,
        countP_replicate_zero Event.isInit Event.resumeCall _ rfl]

/-- Witness for C5_reset_asymmetry at concrete inputs: an erroring chunk
resets without re-registering, a clean chunk does not reset. -/
theorem C5_reset_asymmetry_witness :
    ((replayStep ⟨some "UTF-8", none, 0, []⟩ (Action.chunk [60])
        ⟨XMLStatus.error, []⟩).2 =
      feedEvents [60] false ⟨XMLStatus.error, []⟩ ++
        [Event.resetParser (some "UTF-8")]) ∧
    ((replayStep ⟨some "UTF-8", none, 0, []⟩ (Action.chunk [60])
        ⟨XMLStatus.error, []⟩).2.countP Event.isInit = 0) ∧
    ((replayStep ⟨some "UTF-8", none, 0, []⟩ (Action.chunk [60])
        ⟨XMLStatus.ok, []⟩).2.countP Event.isReset = 0) := by
  refine ⟨((C5_reset_asymmetry ⟨some "UTF-8", none, 0, []⟩ [60]
      ⟨XMLStatus.error, []⟩).1 (by decide)).1,
    ((C5_reset_asymmetry ⟨some "UTF-8", none, 0, []⟩ [60]
      ⟨XMLStatus.error, []⟩).1 (by decide)).2,
    (((C5_reset_asymmetry ⟨some "UTF-8", none, 0, []⟩ [60]
      ⟨XMLStatus.ok, []⟩).2.1) (by decide)).2.1⟩

/-- Claim C6: the recursive verifier enforces the shape invariants and aborts
(returns false, modelling the assert) on any violation: EMPTY/ANY nodes with
a name, children, or a quantifier fail; MIXED nodes with any child that is
not a childless NAME node fail; NAME nodes with children fail; CHOICE/SEQ
nodes are verified child by child (they pass exactly when they have no name
and every child passes, so any failing child fails them); any other tag
fails.  When verification passes, the element-declaration handler releases
the content model exactly once; when it aborts, no release happens. -/
theorem C6_content_model_verifier :
    (∀ (t : XMLContentType) (q : XMLQuant) (n : Option String)
        (cs : List XMLContent),
        (t = XMLContentType.EMPTY ∨ t = XMLContentType.ANY) →
        (q ≠ XMLQuant.NONE ∨ n ≠ none ∨ cs ≠ []) →
        TouchChildNodes (XMLContent.node t q n cs) = false) ∧
    (∀ (q : XMLQuant) (n : Option String) (cs : List XMLContent)
        (c : XMLContent), c ∈ cs → isNameLeaf c = false →
        TouchChildNodes (XMLContent.node XMLContentType.MIXED q n cs) =
          false) ∧
    (∀ (q : XMLQuant) (n : Option String) (cs : List XMLContent),
        cs ≠ [] →
        TouchChildNodes (XMLContent.node XMLContentType.NAME q n cs) =
          false) ∧
    (∀ (t : XMLContentType) (q : XMLQuant) (n : Option String)
        (cs : List XMLContent),
        (t = XMLContentType.CHOICE ∨ t = XMLContentType.SEQ) →
        (TouchChildNodes (XMLContent.node t q n cs) = true ↔
          (n = none ∧ ∀ c ∈ cs, TouchChildNodes c = true))) ∧
    (∀ (q : XMLQuant) (n : Option String) (cs : List XMLContent),
        TouchChildNodes (XMLContent.node XMLContentType.badTag q n cs) =
          false) ∧
    (∀ (nm : Option String) (m : XMLContent), TouchChildNodes m = true →
        ElementDeclHandler nm m =
          some [EDHEvent.touchName nm, EDHEvent.freeContentModel] ∧
        ∀ evs, ElementDeclHandler nm m = some evs →
          evs.countP (fun e => e == EDHEvent.freeContentModel) = 1) ∧
    (∀ (nm : Option String) (m : XMLContent), TouchChildNodes m = false →
        ElementDeclHandler nm m = none) := by
  refine ⟨?_, ?_, ?_, touch_choice_seq_eq_true_iff, fun q n cs => rfl,
    ?_, ?_⟩
  · intro t q n cs ht hviol
    cases hb : TouchChildNodes (XMLContent.node t q n cs) with
    | false => rfl
    | true =>
        have hall := (touch_empty_any_eq_true_iff t q n cs ht).mp hb
        rcases hviol with hq | hn | hcs
        · exact absurd hall.1 hq
        · exact absurd hall.2.1 hn
        · exact absurd hall.2.2 hcs
  · intro q n cs c hc hleaf
    cases hb : TouchChildNodes (XMLContent.node XMLContentType.MIXED q n cs)
      with
    | false => rfl
    | true =>
        have hall := (touch_mixed_eq_true_iff q n cs).mp hb
        have := hall.2.2 c hc
        rw [this] at hleaf
        exact absurd hleaf (by simp)
  · intro q n cs hne
    cases cs with
    | nil => exact absurd rfl hne
    | cons c rest => rfl
  · intro nm m hm
    refine ⟨by simp [ElementDeclHandler, hm], ?_⟩
    intro evs hevs
    simp [ElementDeclHandler, hm] at hevs
    subst hevs
    rfl
  · intro nm m hm
    simp [ElementDeclHandler, hm]

/-- Witness for C6_content_model_verifier at concrete content trees. -/
theorem C6_content_model_verifier_witness :
    TouchChildNodes (XMLContent.node XMLContentType.EMPTY XMLQuant.NONE
      (some "x") []) = false ∧
    TouchChildNodes (XMLContent.node XMLContentType.MIXED XMLQuant.NONE none
      [XMLContent.node XMLContentType.ANY XMLQuant.NONE none []]) = false ∧
    TouchChildNodes (XMLContent.node XMLContentType.NAME XMLQuant.NONE
      (some "x")
      [XMLContent.node XMLContentType.NAME XMLQuant.NONE (some "y") []]) =
      false ∧
    ElementDeclHandler (some "e")
      (XMLContent.node XMLContentType.ANY XMLQuant.NONE none []) =
      some [EDHEvent.touchName (some "e"), EDHEvent.freeContentModel] ∧
    ElementDeclHandler (some "e")
      (XMLContent.node XMLContentType.badTag XMLQuant.NONE none []) =
      none := by
  refine ⟨C6_content_model_verifier.1 XMLContentType.EMPTY XMLQuant.NONE
      (some "x") [] (Or.inl rfl) (by simp),
    C6_content_model_verifier.2.1 XMLQuant.NONE none
      [XMLContent.node XMLContentType.ANY XMLQuant.NONE none []]
      (XMLContent.node XMLContentType.ANY XMLQuant.NONE none [])
      (by simp) (by rfl),
    C6_content_model_verifier.2.2.1 XMLQuant.NONE (some "x")
      [XMLContent.node XMLContentType.NAME XMLQuant.NONE (some "y") []]
      (by simp),
    (C6_content_model_verifier.2.2.2.2.2.1 (some "e")
      (XMLContent.node XMLContentType.ANY XMLQuant.NONE none [])
      (by rfl)).1,
    C6_content_model_verifier.2.2.2.2.2.2 (some "e")
      (XMLContent.node XMLContentType.badTag XMLQuant.NONE none [])
      (by rfl)⟩

/-- Claim C7: the Encoding enum is translated to exactly these encoding-name
strings before parser construction: UTF8 to "UTF-8", UTF16 to "UTF-16",
ISO88591 to "ISO-8859-1", ASCII to "US-ASCII", NONE to no encoding hint
(null, auto-detect), and any unrecognized enum value to the sentinel string
"UNKNOWN". -/
theorem C7_encoding_translation :
    SetEncoding Encoding.UTF8 = some "UTF-8" ∧
    SetEncoding Encoding.UTF16 = some "UTF-16" ∧
    SetEncoding Encoding.ISO88591 = some "ISO-8859-1" ∧
    SetEncoding Encoding.ASCII = some "US-ASCII" ∧
    SetEncoding Encoding.NONE = none ∧
    SetEncoding Encoding.unrecognized = some "UNKNOWN" :=
  ⟨rfl, rfl, rfl, rfl, rfl, rfl⟩

/-- Claim C8: a test case with zero actions makes the driver return at once:
the event trace is empty (no parser constructed, no data fed) and the
allocation counter, the fail-list and the encoding global are untouched. -/
theorem C8_zero_actions_no_work :
    ∀ (g : Globals) (tc : Testcase) (oracle : List FeedResult),
      tc.actions = [] →
      (runTestcase g tc oracle).2 = [] ∧
      (runTestcase g tc oracle).1.allocation_count = g.allocation_count ∧
      (runTestcase g tc oracle).1.fail_allocations = g.fail_allocations ∧
      (runTestcase g tc oracle).1.g_encoding = g.g_encoding := by
  intro g tc oracle h
  simp [runTestcase, h]

/-- Witness for C8_zero_actions_no_work at a concrete input. -/
theorem C8_zero_actions_no_work_witness :
    (runTestcase ⟨some "UTF-8", some [1], 7, [2]⟩
      ⟨Encoding.NONE, [9], []⟩ []).2 = [] ∧
    (runTestcase ⟨some "UTF-8", some [1], 7, [2]⟩
      ⟨Encoding.NONE, [9], []⟩ []).1.allocation_count = 7 := by
  refine ⟨(C8_zero_actions_no_work ⟨some "UTF-8", some [1], 7, [2]⟩
      ⟨Encoding.NONE, [9], []⟩ [] rfl).1,
    (C8_zero_actions_no_work ⟨some "UTF-8", some [1], 7, [2]⟩
      ⟨Encoding.NONE, [9], []⟩ [] rfl).2.1⟩

/-- Claim C9: the comment handler first touches the comment text and then
requests resumable cooperative suspension (XML_StopParser with resumable
true); and after the driver's resume loop the chunk outcome is a terminal
status, OK or ERROR — never suspended — under the library's progress
guarantee. -/
theorem C9_comment_suspend_then_terminal :
    (∀ d : Option String,
      CommentHandler d =
        [CommentEvent.touchData d, CommentEvent.stopRequest true]) ∧
    (∀ fr : FeedResult,
      (∃ x ∈ fr.status :: fr.resumes, x ≠ XMLStatus.suspended) →
      ((Parse fr).1 = XMLStatus.ok ∨ (Parse fr).1 = XMLStatus.error)) := by
  constructor
  · intro d
    rfl
  · intro fr h
    have hns := resumeLoop_progress fr.resumes fr.status h
    cases hp : (Parse fr).1 with
    | ok => exact Or.inl rfl
    | error => exact Or.inr rfl
    | suspended => exact absurd hp hns

/-- Witness for C9_comment_suspend_then_terminal at concrete inputs. -/
theorem C9_comment_suspend_then_terminal_witness :
    CommentHandler (some "c") =
      [CommentEvent.touchData (some "c"), CommentEvent.stopRequest true] ∧
    ((Parse ⟨XMLStatus.suspended, [XMLStatus.error]⟩).1 = XMLStatus.ok ∨
     (Parse ⟨XMLStatus.suspended, [XMLStatus.error]⟩).1 = XMLStatus.error) :=
  ⟨C9_comment_suspend_then_terminal.1 (some "c"),
   C9_comment_suspend_then_terminal.2
     ⟨XMLStatus.suspended, [XMLStatus.error]⟩ (by decide)⟩

/-- Claim C10: for a non-empty test case, the main parser is constructed
exactly once and freed exactly once, and the free is the last library call
of the run, on every control path (whatever parse outcomes the oracle
yields and whatever the fail-list is). -/
theorem C10_parser_created_and_freed_once :
    ∀ (g : Globals) (tc : Testcase) (oracle : List FeedResult),
      tc.actions ≠ [] →
      (runTestcase g tc oracle).2.countP Event.isCreate = 1 ∧
      (runTestcase g tc oracle).2.countP Event.isFree = 1 ∧
      (runTestcase g tc oracle).2.getLast? = some Event.freeParser := by
  intro g tc oracle h
  have hne : tc.actions.isEmpty = false := by
    cases hac : tc.actions with
    | nil => exact absurd hac h
    | cons a rest => rfl
  have hev : (runTestcase g tc oracle).2 =
      Event.createParser (SetEncoding tc.encoding) :: Event.initParser ::
        (replay (setupGlobals g tc) tc.actions oracle).2 ++
          [Event.freeParser] := by
    simp [runTestcase, hne]
  have hc : (replay (setupGlobals g tc) tc.actions oracle).2.countP
      Event.isCreate = 0 := by
    rw [List.countP_eq_zero]
    intro e he
    simp [(replay_not_create_free tc.actions (setupGlobals g tc) oracle
      e he).1]
  have hf : (replay (setupGlobals g tc) tc.actions oracle).2.countP
      Event.isFree = 0 := by
    rw [List.countP_eq_zero]
    intro e he
    simp [(replay_not_create_free tc.actions (setupGlobals g tc) oracle
      e he).2]
  rw [hev]
  refine ⟨?_, ?_, getLast_shape _ _ _ _⟩
  · simp [List.countP_cons, List.countP_append, hc, Event.isCreate]
  · simp [List.countP_cons, List.countP_append, hf, Event.isFree]

/-- Witness for C10_parser_created_and_freed_once at a concrete input. -/
theorem C10_parser_created_and_freed_once_witness :
    (runTestcase ⟨none, none, 0, []⟩ ⟨Encoding.NONE, [], [Action.reset]⟩
      []).2.countP Event.isCreate = 1 ∧
    (runTestcase ⟨none, none, 0, []⟩ ⟨Encoding.NONE, [], [Action.reset]⟩
      []).2.getLast? = some Event.freeParser :=
  ⟨(C10_parser_created_and_freed_once ⟨none, none, 0, []⟩
      ⟨Encoding.NONE, [], [Action.reset]⟩ [] (by decide)).1,
   (C10_parser_created_and_freed_once ⟨none, none, 0, []⟩
      ⟨Encoding.NONE, [], [Action.reset]⟩ [] (by decide)).2.2⟩

end XmlLpmFuzzer
